import Mathlib

/-!
Formal model of the `keyword_crawler` package (crawl orchestration engine,
extraction layer, storage operations and scheduler registry), embedded
shallowly from the Python source:

* `src/keyword_crawler/crawler.py`   — `SearchCrawler` (`_is_blocked`,
  `_make_request`, `_try_parse_with_selectors`, `search_keyword`)
* `src/keyword_crawler/database.py`  — `DatabaseManager` (task / result /
  statistic tables)
* `src/keyword_crawler/scheduler.py` — `TaskScheduler` (`add_cron_job`,
  `remove_job`)

Conventions of the embedding: network traffic is abstracted by per-attempt
outcome lists (an attempt either raises or yields a concrete response);
parsed HTML is abstracted by a `Soup` whose `select` and `select_one`
behaviour is arbitrary; wall-clock readings (`started_at`, `completed_at`,
`created_at` timestamps) are omitted because no claim mentions them; the
elapsed response time and the current date are passed as parameters.
Python floats are modelled by `Rat`, Python ints by `Int` (lengths by
`Nat`).
-/

namespace KeywordCrawler

/-- HTTP response as seen by the crawler: status code and body text. -/
structure Response where
  status : Nat
  body : String
deriving DecidableEq, Repr

/-- Lowercasing as applied by `response.text.lower()` in `_is_blocked`
(modelled character-wise; ASCII letters are lowered, CJK characters are
unchanged, matching both Python and Lean behaviour on the indicator set). -/
def strLower (s : String) : String :=
  String.mk (s.toList.map Char.toLower)

/-- Boolean list-prefix test used by the substring check. -/
def isPre : List Char → List Char → Bool
  | [], _ => true
  | _ :: _, [] => false
  | a :: as, b :: bs => a = b && isPre as bs

/-- Python `needle in hay` substring containment on character lists. -/
def containsSub (needle : List Char) : List Char → Bool
  | [] => needle.isEmpty
  | c :: t => isPre needle (c :: t) || containsSub needle t

/-- The `blocked_indicators` list of `SearchCrawler._is_blocked`
(crawler.py lines 170-177), verbatim. -/
def blocked_indicators : List String :=
  ["验证码", "captcha", "人机验证",
   "security check", "安全验证",
   "unusual traffic", "异常流量",
   "robot", "机器人", "blocked",
   "请输入验证码", "访问验证",
   "access denied", "拒绝访问"]

/-- Embedding of `SearchCrawler._is_blocked` (crawler.py lines 164-179):
status 403/429/503 is blocked; otherwise the lowercased body is scanned
for any indicator substring. -/
def is_blocked (resp : Response) : Bool :=
  if resp.status = 403 ∨ resp.status = 429 ∨ resp.status = 503 then
    true
  else
    let content := strLower resp.body
    blocked_indicators.any (fun indicator => containsSub indicator.toList content.toList)

/-- Outcome of one attempt inside `_make_request`: either a
`requests.exceptions.RequestException` or a delivered response. -/
inductive Attempt where
  | ex : Attempt
  | resp : Response → Attempt
deriving DecidableEq, Repr

/-- Embedding of `SearchCrawler._make_request` (crawler.py lines 181-235).
The attempt list plays the role of the `for attempt in range(retries)`
loop: each element is what the network produced on that attempt.  A
blocked response is skipped (`continue`), a 200 response is returned,
any other status falls through to the next attempt, an exception is
caught and retried; an exhausted loop returns `None`. -/
def make_request : List Attempt → Option Response
  | [] => none
  | a :: rest =>
    match a with
    | Attempt.ex => make_request rest
    | Attempt.resp r =>
      if is_blocked r then make_request rest
      else if r.status = 200 then some r
      else make_request rest

/-- Pagination offset computed at the top of the page loop of
`SearchCrawler.search_keyword` (crawler.py lines 331-336): baidu uses
page*10, bing uses page*10+1, every other engine (sogou) uses page+1. -/
def page_num (search_engine : String) (page : Nat) : Nat :=
  if search_engine = "baidu" then page * 10
  else if search_engine = "bing" then page * 10 + 1
  else page + 1

/-- One extracted search hit before rank/task association (a title, url,
snippet dictionary as built by `_try_parse_with_selectors`). -/
structure Frag where
  title : String
  url : String
  snippet : String
deriving DecidableEq, Repr

/-- Embedding of the page loop of `SearchCrawler.search_keyword`
(crawler.py lines 329-375).  `fp page` abstracts fetching and parsing
page `page`: `none` when `_make_request` returned `None` (the loop logs
and continues), `some frags` when the page was fetched and parsed.  The
first component of the result is the list of page indices actually
requested, the second is `all_results`.  A parsed page first extends
`all_results` and then, if it contributed no results, breaks the loop. -/
def crawlPages (fp : Nat → Option (List Frag)) : Nat → Nat → List Nat × List Frag
  | 0, _ => ([], [])
  | n + 1, page =>
    match fp page with
    | none =>
      let rec' := crawlPages fp n (page + 1)
      (page :: rec'.1, rec'.2)
    | some frags =>
      if frags.isEmpty then
        (page :: [], frags)
      else
        let rec' := crawlPages fp n (page + 1)
        (page :: rec'.1, frags ++ rec'.2)

/-! Extraction layer: `_try_parse_with_selectors` (crawler.py 237-290). -/

/-- One DOM node as returned by `select_one`: its stripped text
(`get_text(strip=True)`) and its optional `href` attribute. -/
structure Node where
  text : String
  href : Option String
deriving DecidableEq, Repr

/-- One result container element; `select_one` resolves a CSS selector
inside it. -/
structure Element where
  select_one : String → Option Node

/-- Parsed document; `select` resolves a CSS selector to the matched
elements in document order. -/
structure Soup where
  select : String → List Element

/-- Selector fallback chains of one engine profile, as in the
`UPDATED_SELECTORS` table (crawler.py 21-86). -/
structure SelectorSet where
  result : List String
  title : List String
  url : List String
  snippet : List String

/-- Title / snippet resolution loop of `_try_parse_with_selectors`
(crawler.py 255-260 and 271-276): take the text of the first chain member
whose `select_one` finds an element, else the empty string. -/
def resolveText (item : Element) : List String → String
  | [] => ""
  | s :: rest =>
    match item.select_one s with
    | some n => n.text
    | none => resolveText item rest

/-- Url resolution loop (crawler.py 263-268): take the `href` of the first
chain member whose `select_one` finds an element carrying a truthy
(non-empty) `href`; otherwise keep scanning, else the empty string. -/
def resolveUrl (item : Element) : List String → String
  | [] => ""
  | s :: rest =>
    match item.select_one s with
    | some n =>
      match n.href with
      | some h => if h = "" then resolveUrl item rest else h
      | none => resolveUrl item rest
    | none => resolveUrl item rest

/-- Per-container body of the extraction loop (crawler.py 250-288): build
the fragment, and keep it only when the resolved title is non-empty. -/
def parseItem (sel : SelectorSet) (item : Element) : Option Frag :=
  let title := resolveText item sel.title
  if title = "" then none
  else some { title := title, url := resolveUrl item sel.url,
              snippet := resolveText item sel.snippet }

/-- Container-selector fallback loop (crawler.py 242-248, the
`for ... else` statement): the matches of the first result selector that
matches at least one element, `none` when every selector matches nothing. -/
def firstContainerMatch (soup : Soup) : List String → Option (List Element)
  | [] => none
  | s :: rest =>
    let items := soup.select s
    if items.isEmpty then firstContainerMatch soup rest else some items

/-- Embedding of `SearchCrawler._try_parse_with_selectors`
(crawler.py 237-290). -/
def try_parse_with_selectors (soup : Soup) (sel : SelectorSet) : List Frag :=
  match firstContainerMatch soup sel.result with
  | none => []
  | some items => items.filterMap (parseItem sel)

/-! Storage operations: `DatabaseManager` (database.py). -/

/-- One `search_tasks` row (timestamps omitted, see the header comment). -/
structure TaskRow where
  keyword : String
  search_engine : String
  status : String
  error_message : Option String
deriving DecidableEq, Repr

/-- One `search_results` row. -/
structure ResultRow where
  task_id : Nat
  keyword : String
  search_engine : String
  title : String
  url : String
  snippet : String
  rank_position : Nat
deriving DecidableEq, Repr

/-- One `statistics` row; `date` is an abstract day number. -/
structure StatRow where
  keyword : String
  search_engine : String
  total_results : Int
  successful_results : Int
  failed_results : Int
  avg_response_time : Rat
  date : Nat
deriving DecidableEq, Repr

/-- Database state.  `statusLog` records every status a task row has
carried (the INSERT of `create_search_task` and each effective branch of
`update_task_status`), and `statLog` records the arguments of every
`update_statistics` call; both are history variables used only to state
theorems, they do not influence any operation. -/
structure DB where
  tasks : List (Nat × TaskRow)
  results : List ResultRow
  stats : List StatRow
  nextId : Nat
  statusLog : List (Nat × String)
  statLog : List (String × String × Int × Int × Rat)
deriving DecidableEq, Repr

/-- The empty database produced by `init_database`. -/
def DB.empty : DB :=
  { tasks := [], results := [], stats := [], nextId := 1,
    statusLog := [], statLog := [] }

/-- Embedding of `DatabaseManager.create_search_task` (database.py
101-110): INSERT a pending row, return its fresh id. -/
def create_search_task (db : DB) (keyword search_engine : String) : Nat × DB :=
  let id := db.nextId
  (id, { db with
          tasks := db.tasks ++
            [(id, { keyword := keyword, search_engine := search_engine,
                    status := "pending", error_message := none })],
          nextId := db.nextId + 1,
          statusLog := db.statusLog ++ [(id, "pending")] })

/-- Update of the first association-list entry with the given key. -/
def updateTaskRow (id : Nat) (f : TaskRow → TaskRow) :
    List (Nat × TaskRow) → List (Nat × TaskRow)
  | [] => []
  | (k, r) :: rest =>
    if k = id then (k, f r) :: rest else (k, r) :: updateTaskRow id f rest

/-- Embedding of `DatabaseManager.update_task_status` (database.py
112-134).  Only the statuses `running`, `completed` and `failed` have an
UPDATE branch; any other status string leaves the table untouched.  Only
the `failed` branch writes an error message. -/
def update_task_status (db : DB) (task_id : Nat) (status : String)
    (error_message : Option String) : DB :=
  if status = "running" then
    { db with tasks := updateTaskRow task_id (fun r => { r with status := status }) db.tasks,
              statusLog := db.statusLog ++ [(task_id, status)] }
  else if status = "completed" then
    { db with tasks := updateTaskRow task_id (fun r => { r with status := status }) db.tasks,
              statusLog := db.statusLog ++ [(task_id, status)] }
  else if status = "failed" then
    { db with tasks := updateTaskRow task_id
                (fun r => { r with status := status, error_message := error_message }) db.tasks,
              statusLog := db.statusLog ++ [(task_id, status)] }
  else db

/-- Embedding of `DatabaseManager.save_search_results` (database.py
136-152): one INSERT per fragment with `rank_position = i + 1` in
enumeration order. -/
def save_search_results (db : DB) (task_id : Nat) (keyword search_engine : String)
    (results : List Frag) : DB :=
  { db with results := db.results ++
      ((List.range results.length).zip results).map (fun p =>
        { task_id := task_id, keyword := keyword, search_engine := search_engine,
          title := p.2.title, url := p.2.url, snippet := p.2.snippet,
          rank_position := p.1 + 1 }) }

/-- Update of the first statistics row satisfying the predicate. -/
def updateFirstStat (p : StatRow → Bool) (f : StatRow → StatRow) :
    List StatRow → List StatRow
  | [] => []
  | r :: rest => if p r then f r :: rest else r :: updateFirstStat p f rest

/-- Row-match predicate of the SELECT in `update_statistics`
(database.py 163-166): same keyword, engine and date. -/
def statHit (keyword search_engine : String) (today : Nat) (r : StatRow) : Bool :=
  r.keyword = keyword && r.search_engine = search_engine && r.date = today

/-- Embedding of `DatabaseManager.update_statistics` (database.py
154-190): if a row for (keyword, engine, today) exists, add the counts
and set the average to `(avg + sample) / 2`; otherwise insert a fresh row
with the sample as the initial average.  `failed_results` is
`total - successful` in both branches. -/
def update_statistics (db : DB) (keyword search_engine : String)
    (total_results successful_results : Int) (response_time : Rat)
    (today : Nat) : DB :=
  if db.stats.any (statHit keyword search_engine today) then
    { db with
        stats := updateFirstStat (statHit keyword search_engine today) (fun r =>
          { r with
              total_results := r.total_results + total_results,
              successful_results := r.successful_results + successful_results,
              failed_results := r.failed_results + (total_results - successful_results),
              avg_response_time := (r.avg_response_time + response_time) / 2 }) db.stats,
        statLog := db.statLog ++
          [(keyword, search_engine, total_results, successful_results, response_time)] }
  else
    { db with
        stats := db.stats ++
          [{ keyword := keyword, search_engine := search_engine,
             total_results := total_results,
             successful_results := successful_results,
             failed_results := total_results - successful_results,
             avg_response_time := response_time, date := today }],
        statLog := db.statLog ++
          [(keyword, search_engine, total_results, successful_results, response_time)] }

/-- The keys of `Config.SEARCH_ENGINES` (config.py 41-69). -/
def SEARCH_ENGINES : List String := ["baidu", "bing", "sogou"]

/-- Embedding of `SearchCrawler.search_keyword` (crawler.py 314-402).
`fp page` abstracts `_make_request` plus the per-engine parse of page
`page` (`none` when the request failed).  `elapsed` is the measured
response time, `today` the current date.  The function creates the task,
marks it running, and then either runs the page loop, saves a non-empty
result set, updates statistics and marks the task completed — or, when
the engine is not configured (the `ValueError` caught by the `except`
block), marks the task failed with the error text and records a
zero-success statistic. -/
def search_keyword (fp : Nat → Option (List Frag)) (keyword search_engine : String)
    (pages : Nat) (elapsed : Rat) (today : Nat) (db : DB) : List Frag × DB :=
  let created := create_search_task db keyword search_engine
  let task_id := created.1
  let db1 := update_task_status created.2 task_id "running" none
  if SEARCH_ENGINES.contains search_engine then
    let all_results := (crawlPages fp pages 0).2
    let db2 :=
      if all_results.isEmpty then db1
      else save_search_results db1 task_id keyword search_engine all_results
    let db3 := update_statistics db2 keyword search_engine
      (all_results.length : Int) (all_results.length : Int) elapsed today
    let db4 := update_task_status db3 task_id "completed" none
    (all_results, db4)
  else
    let error_msg := "不支持的搜索引擎: " ++ search_engine
    let db2 := update_task_status db1 task_id "failed" (some error_msg)
    let db3 := update_statistics db2 keyword search_engine 0 0 elapsed today
    ([], db3)

/-! Scheduler: `TaskScheduler` (scheduler.py). -/

/-- Metadata stored in `registered_jobs` for one job. -/
structure SchedJob where
  kind : String
  cron : Option String
  interval : Option Nat
deriving DecidableEq, Repr

/-- Scheduler state: the `registered_jobs` registry keyed by job id. -/
structure Scheduler where
  registered_jobs : List (String × SchedJob)
deriving DecidableEq, Repr

/-- Embedding of `TaskScheduler.remove_job` (scheduler.py 149-163):
deletes the registry entry when present, otherwise warns and returns
False. -/
def remove_job (s : Scheduler) (job_id : String) : Bool × Scheduler :=
  if s.registered_jobs.any (fun p => p.1 = job_id) then
    (true, { registered_jobs := s.registered_jobs.filter (fun p => ¬ p.1 = job_id) })
  else
    (false, s)

/-- Python `str.split()` with no argument: split on whitespace runs,
dropping empty pieces.  `acc` carries the reversed current word. -/
def pySplitAux : List Char → List Char → List (List Char)
  | [], [] => []
  | [], acc => [acc.reverse]
  | c :: cs, acc =>
    if c.isWhitespace then
      if acc.isEmpty then pySplitAux cs []
      else acc.reverse :: pySplitAux cs []
    else pySplitAux cs (c :: acc)

/-- Python `cron_expression.split()`. -/
def pySplit (s : String) : List (List Char) :=
  pySplitAux s.toList []

/-- Embedding of `TaskScheduler.add_cron_job` (scheduler.py 104-147).
If the id is already registered the old job is removed first; then the
cron expression is split — a field count other than five raises the
`ValueError`, which the `except` block turns into a `False` return;
otherwise the job is installed and recorded in `registered_jobs`. -/
def add_cron_job (s : Scheduler) (job_id : String) (cron_expression : String) :
    Bool × Scheduler :=
  let s1 :=
    if s.registered_jobs.any (fun p => p.1 = job_id) then (remove_job s job_id).2
    else s
  let cron_parts := pySplit cron_expression
  if cron_parts.length = 5 then
    (true, { registered_jobs := s1.registered_jobs ++
              [(job_id, { kind := "cron", cron := some cron_expression, interval := none })] })
  else
    (false, s1)

/-- Status trace of one `search_keyword` run: the statuses appended to
the status history during the run (all of them concern the task the run
creates), in order. -/
def runStatusTrace (fp : Nat → Option (List Frag)) (keyword search_engine : String)
    (pages : Nat) (elapsed : Rat) (today : Nat) (db : DB) : List String :=
  ((search_keyword fp keyword search_engine pages elapsed today db).2.statusLog.drop
      db.statusLog.length).map (fun p => p.2)

/-- Task status transitions allowed by the specified state machine. -/
def allowedTransition (a b : String) : Bool :=
  (a == "pending" && b == "running") || (a == "running" && b == "completed") ||
    (a == "running" && b == "failed")

/-- Terminal task statuses. -/
def terminalStatus (s : String) : Bool :=
  s == "completed" || s == "failed"

/-! Concrete instances used by scenario theorems and witnesses. -/

/-- Fetch-and-parse oracle of the C5 scenario: page 0 yields five
fragments, page 1 yields none, and any later page would yield one more
fragment (so requesting page 2 would be observable). -/
def exampleFetch : Nat → Option (List Frag)
  | 0 => some ((List.range 5).map (fun i =>
      { title := toString i, url := "", snippet := "" }))
  | 1 => some []
  | _ => some [{ title := "late", url := "", snippet := "" }]

/-- Concrete DOM node holding the title text A. -/
def nodeA : Node := { text := "A", href := some "hrefA" }

/-- Concrete container resolving the title selector to `nodeA`. -/
def elemA : Element :=
  { select_one := fun s => if s = "t" then some nodeA else none }

/-- Concrete container whose resolved title is empty. -/
def elemEmptyTitle : Element :=
  { select_one := fun s => if s = "t" then some { text := "", href := none } else none }

/-- Concrete document: the third container selector matches two elements,
the first two match nothing. -/
def exampleSoup : Soup :=
  { select := fun s => if s = "c3" then [elemA, elemEmptyTitle] else [] }

/-- Concrete selector profile with a three-step container fallback chain. -/
def exampleSel : SelectorSet :=
  { result := ["c1", "c2", "c3"], title := ["t"], url := ["t"], snippet := ["sn"] }

/-- Concrete pre-registered cron job used by the C9 scenario. -/
def jobJ : SchedJob := { kind := "cron", cron := some "0 9 * * *", interval := none }

/-- Concrete scheduler state with one registered job id `j`. -/
def sched0 : Scheduler := { registered_jobs := [("j", jobJ)] }

/-- Fetch-and-parse oracle in which the engine answers HTTP 429 on all
three attempts of `_make_request` for every page, so the fetch layer
always returns its terminal failure value. -/
def alwaysBlockedFetch (_page : Nat) : Option (List Frag) :=
  (make_request (List.replicate 3 (Attempt.resp { status := 429, body := "" }))).map
    (fun _ => [])

/-! Theorems. -/

/-- Every configured blocking indicator is already lowercase, so lowering
it is a no-op. -/
theorem blocked_indicators_lower_fixed :
    ∀ indicator ∈ blocked_indicators, strLower indicator = indicator := by
  decide

/-- C4: the blocking classifier marks a response as blocked iff its HTTP
status is one of 403/429/503 or its body contains one of the configured
indicator substrings case-insensitively (both sides lowered); hence every
status-429 response is blocked regardless of body, and a status-200
response whose body contains no indicator phrase is not blocked. -/
theorem is_blocked_spec (r : Response) :
    (is_blocked r = true ↔
      ((r.status = 403 ∨ r.status = 429 ∨ r.status = 503) ∨
       ∃ indicator ∈ blocked_indicators,
         containsSub (strLower indicator).toList (strLower r.body).toList = true)) ∧
    (r.status = 429 → is_blocked r = true) ∧
    (r.status = 200 →
      (∀ indicator ∈ blocked_indicators,
        containsSub (strLower indicator).toList (strLower r.body).toList = false) →
      is_blocked r = false) := by
  have key : is_blocked r = true ↔
      ((r.status = 403 ∨ r.status = 429 ∨ r.status = 503) ∨
       ∃ indicator ∈ blocked_indicators,
         containsSub (strLower indicator).toList (strLower r.body).toList = true) := by
    unfold is_blocked
    by_cases h : r.status = 403 ∨ r.status = 429 ∨ r.status = 503
    · simp [h]
    · rw [if_neg h]
      simp only [List.any_eq_true]
      constructor
      · rintro ⟨x, hx, hp⟩
        exact Or.inr ⟨x, hx, by rw [blocked_indicators_lower_fixed x hx]; exact hp⟩
      · rintro (hs | ⟨x, hx, hp⟩)
        · exact absurd hs h
        · exact ⟨x, hx, by rwa [blocked_indicators_lower_fixed x hx] at hp⟩
  refine ⟨key, ?_, ?_⟩
  · intro h429
    exact key.mpr (Or.inl (Or.inr (Or.inl h429)))
  · intro h200 hind
    by_contra hb
    rw [Bool.not_eq_false] at hb
    rcases key.mp hb with hs | ⟨x, hx, hp⟩
    · rcases hs with h | h | h <;> omega
    · rw [hind x hx] at hp
      exact Bool.false_ne_true hp

/-- Witness for C4 at a concrete response. -/
theorem is_blocked_spec_witness :
    is_blocked (Response.mk 429 "any body") = true ∧
    is_blocked (Response.mk 200 "plain result page") = false := by
  constructor
  · exact (is_blocked_spec (Response.mk 429 "any body")).2.1 rfl
  · exact (is_blocked_spec (Response.mk 200 "plain result page")).2.2 rfl (by decide)

/-- C8: within one engine profile the pagination formula is injective —
distinct page indices map to distinct offset parameters.  (It is a pure
deterministic function by construction: the embedding is a function of
the page index alone, exactly like the source expression.) -/
theorem page_num_injective (search_engine : String) (p₁ p₂ : Nat)
    (h : page_num search_engine p₁ = page_num search_engine p₂) : p₁ = p₂ := by
  unfold page_num at h
  split_ifs at h <;> omega

/-- Witness for C8 at a concrete engine and page index. -/
theorem page_num_injective_witness :
    page_num "baidu" 3 = page_num "baidu" 3 ∧ (3 : Nat) = 3 :=
  ⟨rfl, page_num_injective "baidu" 3 3 rfl⟩

/-- C10: whenever `_make_request` returns a response rather than `None`,
that response has status exactly 200 and is not classified as blocked. -/
theorem make_request_ok (attempts : List Attempt) (r : Response)
    (h : make_request attempts = some r) :
    r.status = 200 ∧ is_blocked r = false := by
  induction attempts with
  | nil => simp [make_request] at h
  | cons a rest ih =>
    cases a with
    | ex => exact ih (by simpa [make_request] using h)
    | resp resp =>
      rw [make_request] at h
      by_cases hb : is_blocked resp = true
      · rw [if_pos hb] at h
        exact ih h
      · rw [if_neg hb] at h
        by_cases hs : resp.status = 200
        · rw [if_pos hs] at h
          injection h with h₂
          subst h₂
          exact ⟨hs, by rwa [Bool.not_eq_true] at hb⟩
        · rw [if_neg hs] at h
          exact ih h

/-- Witness for C10 at a concrete attempt list. -/
theorem make_request_ok_witness :
    (Response.mk 200 "ok").status = 200 ∧
    is_blocked (Response.mk 200 "ok") = false :=
  make_request_ok [Attempt.resp (Response.mk 200 "ok")] (Response.mk 200 "ok")
    (by decide)

/-- Updating the first matching row rewrites exactly the first row
satisfying the predicate and keeps everything else. -/
theorem updateFirstStat_append (p : StatRow → Bool) (f : StatRow → StatRow)
    (pre : List StatRow) (row : StatRow) (post : List StatRow)
    (hpre : ∀ r ∈ pre, p r = false) (hrow : p row = true) :
    updateFirstStat p f (pre ++ row :: post) = pre ++ f row :: post := by
  induction pre with
  | nil => simp [updateFirstStat, hrow]
  | cons a as ih =>
    have ha : p a = false := hpre a (List.mem_cons_self a as)
    have ih' := ih (fun r hr => hpre r (List.mem_cons_of_mem a hr))
    simp only [List.cons_append, updateFirstStat]
    rw [if_neg (by simp [ha])]
    exact congrArg (a :: ·) ih'

/-- Insert branch of the statistic upsert: with no matching row, a fresh
row with the given counts and the sample as initial average is appended. -/
theorem update_statistics_insert (db : DB) (kw eng : String)
    (total succ : Int) (rt : Rat) (today : Nat)
    (hnone : ∀ r ∈ db.stats, statHit kw eng today r = false) :
    (update_statistics db kw eng total succ rt today).stats =
      db.stats ++ [{ keyword := kw, search_engine := eng,
                     total_results := total, successful_results := succ,
                     failed_results := total - succ,
                     avg_response_time := rt, date := today }] := by
  have hany : db.stats.any (statHit kw eng today) = false := by
    rw [List.any_eq_false]
    intro r hr
    simp [hnone r hr]
  unfold update_statistics
  simp [hany]

/-- Update branch of the statistic upsert: the first matching row gets
its counts incremented additively and its average halved with the new
sample. -/
theorem update_statistics_update (db : DB) (kw eng : String)
    (total succ : Int) (rt : Rat) (today : Nat)
    (pre : List StatRow) (row : StatRow) (post : List StatRow)
    (hsplit : db.stats = pre ++ row :: post)
    (hpre : ∀ r ∈ pre, statHit kw eng today r = false)
    (hrow : statHit kw eng today row = true) :
    (update_statistics db kw eng total succ rt today).stats =
      pre ++ { row with
                total_results := row.total_results + total,
                successful_results := row.successful_results + succ,
                failed_results := row.failed_results + (total - succ),
                avg_response_time := (row.avg_response_time + rt) / 2 } :: post := by
  have hany : db.stats.any (statHit kw eng today) = true := by
    rw [List.any_eq_true]
    exact ⟨row, by rw [hsplit]; exact List.mem_append_right _ (List.mem_cons_self _ _),
           hrow⟩
  unfold update_statistics
  simp only [hany, if_true]
  rw [hsplit]
  exact updateFirstStat_append _ _ pre row post hpre hrow

/-- C2: the statistic upsert inserts a fresh row carrying exactly the
given totals with the sample as initial average when no (keyword, engine,
date) row exists; otherwise it additively increments the counts of the
first matching row and sets the average to (existing + sample) / 2; in
particular a fresh bucket receiving (5, 5, 2.0) and then (3, 3, 4.0) ends
with total=8, success=8, avg=3.0. -/
theorem update_statistics_upsert (db : DB) (kw eng : String)
    (total succ : Int) (rt : Rat) (today : Nat) :
    ((∀ r ∈ db.stats, statHit kw eng today r = false) →
      (update_statistics db kw eng total succ rt today).stats =
        db.stats ++ [{ keyword := kw, search_engine := eng,
                       total_results := total, successful_results := succ,
                       failed_results := total - succ,
                       avg_response_time := rt, date := today }]) ∧
    (∀ pre row post, db.stats = pre ++ row :: post →
      (∀ r ∈ pre, statHit kw eng today r = false) →
      statHit kw eng today row = true →
      (update_statistics db kw eng total succ rt today).stats =
        pre ++ { row with
                  total_results := row.total_results + total,
                  successful_results := row.successful_results + succ,
                  failed_results := row.failed_results + (total - succ),
                  avg_response_time := (row.avg_response_time + rt) / 2 } :: post) ∧
    (update_statistics (update_statistics DB.empty kw eng 5 5 2 today)
        kw eng 3 3 4 today).stats =
      [{ keyword := kw, search_engine := eng, total_results := 8,
         successful_results := 8, failed_results := 0,
         avg_response_time := 3, date := today }] := by
  refine ⟨update_statistics_insert db kw eng total succ rt today,
          fun pre row post hsplit hpre hrow =>
            update_statistics_update db kw eng total succ rt today pre row post
              hsplit hpre hrow, ?_⟩
  have hfirst : (update_statistics DB.empty kw eng 5 5 2 today).stats =
      [] ++ ({ keyword := kw, search_engine := eng, total_results := 5,
               successful_results := 5, failed_results := 0,
               avg_response_time := 2, date := today } : StatRow) :: [] := by
    simpa using update_statistics_insert DB.empty kw eng 5 5 2 today
      (by intro r hr; simp [DB.empty] at hr)
  have hsecond := update_statistics_update
    (update_statistics DB.empty kw eng 5 5 2 today) kw eng 3 3 4 today
    [] _ [] hfirst (by intro r hr; simp at hr) (by simp [statHit])
  rw [hsecond]
  norm_num

/-- Witness for C2 at a concrete database state. -/
theorem update_statistics_upsert_witness :
    (update_statistics DB.empty "k" "baidu" 5 5 2 0).stats =
      [{ keyword := "k", search_engine := "baidu", total_results := 5,
         successful_results := 5, failed_results := 0,
         avg_response_time := 2, date := 0 }] :=
  (update_statistics_upsert DB.empty "k" "baidu" 5 5 2 0).1 (by decide)

/-- C7: a batch write of N results stores rank positions exactly 1..N
(no gaps or duplicates, rank = array index + 1) and preserves the
accumulated fragment order. -/
theorem save_results_rank_invariant (db : DB) (task_id : Nat)
    (kw eng : String) (results : List Frag) :
    ((save_search_results db task_id kw eng results).results.drop
        db.results.length).map (fun row => row.rank_position) =
      List.range' 1 results.length ∧
    ((save_search_results db task_id kw eng results).results.drop
        db.results.length).map (fun row => (row.title, row.url, row.snippet)) =
      results.map (fun f => (f.title, f.url, f.snippet)) ∧
    (((save_search_results db task_id kw eng results).results.drop
        db.results.length).map (fun row => row.rank_position)).Nodup := by
  have hdrop : (save_search_results db task_id kw eng results).results.drop
      db.results.length =
      ((List.range results.length).zip results).map (fun p =>
        { task_id := task_id, keyword := kw, search_engine := eng,
          title := p.2.title, url := p.2.url, snippet := p.2.snippet,
          rank_position := p.1 + 1 }) := by
    unfold save_search_results
    simp [List.drop_left]
  have hfst : ((List.range results.length).zip results).map Prod.fst =
      List.range results.length :=
    List.map_fst_zip _ _ (by simp)
  have hsnd : ((List.range results.length).zip results).map Prod.snd = results :=
    List.map_snd_zip _ _ (by simp)
  have hrank : ((save_search_results db task_id kw eng results).results.drop
      db.results.length).map (fun row => row.rank_position) =
      (List.range results.length).map (fun i => i + 1) := by
    rw [hdrop, List.map_map]
    have : ((List.range results.length).zip results).map (fun p => p.1 + 1) =
        (List.range results.length).map (fun i => i + 1) := by
      rw [show (fun (p : Nat × Frag) => p.1 + 1) =
            (fun i => i + 1) ∘ Prod.fst from rfl, ← List.map_map, hfst]
    exact this
  refine ⟨?_, ?_, ?_⟩
  · rw [hrank, List.range'_eq_map_range]
    exact List.map_congr_left (fun i _ => Nat.add_comm i 1)
  · rw [hdrop, List.map_map]
    rw [show ((fun row : ResultRow => (row.title, row.url, row.snippet)) ∘
          (fun p : Nat × Frag =>
            ({ task_id := task_id, keyword := kw, search_engine := eng,
               title := p.2.title, url := p.2.url, snippet := p.2.snippet,
               rank_position := p.1 + 1 } : ResultRow))) =
          (fun f : Frag => (f.title, f.url, f.snippet)) ∘ Prod.snd from rfl]
    rw [← List.map_map, hsnd]
  · rw [hrank]
    exact (List.nodup_range _).map (fun a b => by omega)

/-- C5: in the page loop a failed fetch skips to the next page index
while a successfully fetched page with zero fragments stops the loop
before any later page is requested; with three pages where page 0 yields
five results and page 1 yields zero, exactly pages 0 and 1 are fetched
and five results are returned. -/
theorem crawlPages_loop_behavior :
    (∀ (fp : Nat → Option (List Frag)) (n page : Nat), fp page = none →
      crawlPages fp (n + 1) page =
        (page :: (crawlPages fp n (page + 1)).1, (crawlPages fp n (page + 1)).2)) ∧
    (∀ (fp : Nat → Option (List Frag)) (n page : Nat), fp page = some [] →
      crawlPages fp (n + 1) page = ([page], [])) ∧
    ((crawlPages exampleFetch 3 0).1 = [0, 1] ∧
     (crawlPages exampleFetch 3 0).2.length = 5) := by
  refine ⟨?_, ?_, by decide⟩
  · intro fp n page h
    simp [crawlPages, h]
  · intro fp n page h
    simp [crawlPages, h]

/-- Witness for C5 at a concrete oracle and page index. -/
theorem crawlPages_loop_behavior_witness :
    crawlPages exampleFetch 1 1 = ([1], []) :=
  crawlPages_loop_behavior.2.1 exampleFetch 0 1 rfl

/-- With every container selector matching nothing, the fallback loop
finds no container set. -/
theorem firstContainerMatch_none (soup : Soup) (chain : List String)
    (h : ∀ s ∈ chain, soup.select s = []) :
    firstContainerMatch soup chain = none := by
  induction chain with
  | nil => rfl
  | cons s rest ih =>
    have hs : soup.select s = [] := h s (List.mem_cons_self _ _)
    simp only [firstContainerMatch, hs, List.isEmpty_nil, if_true]
    exact ih (fun x hx => h x (List.mem_cons_of_mem s hx))

/-- The fallback loop stops at the first selector matching at least one
element and returns exactly its matches. -/
theorem firstContainerMatch_find (soup : Soup) (chain : List String) (s : String)
    (h : chain.find? (fun t => !(soup.select t).isEmpty) = some s) :
    firstContainerMatch soup chain = some (soup.select s) := by
  induction chain with
  | nil => simp at h
  | cons a rest ih =>
    rw [List.find?_cons] at h
    cases hE : (soup.select a).isEmpty with
    | true =>
      rw [hE] at h
      simp only [Bool.not_true] at h
      simp only [firstContainerMatch, hE, if_true]
      exact ih h
    | false =>
      rw [hE] at h
      simp only [Bool.not_false] at h
      injection h with h₂
      subst h₂
      simp only [firstContainerMatch, hE]
      rw [if_neg (by simp [hE])]

/-- C6: extraction uses exactly the elements of the first container
selector that matches at least one element, returns the empty sequence
when no container selector matches, and keeps a matched container if and
only if its resolved title is non-empty. -/
theorem try_parse_spec (soup : Soup) (sel : SelectorSet) :
    ((∀ s ∈ sel.result, soup.select s = []) →
      try_parse_with_selectors soup sel = []) ∧
    (∀ s, sel.result.find? (fun t => !(soup.select t).isEmpty) = some s →
      try_parse_with_selectors soup sel = (soup.select s).filterMap (parseItem sel)) ∧
    (∀ item : Element, (parseItem sel item).isSome = true ↔
      resolveText item sel.title ≠ "") := by
  refine ⟨?_, ?_, ?_⟩
  · intro h
    unfold try_parse_with_selectors
    rw [firstContainerMatch_none soup _ h]
  · intro s hs
    unfold try_parse_with_selectors
    rw [firstContainerMatch_find soup _ s hs]
  · intro item
    unfold parseItem
    by_cases ht : resolveText item sel.title = ""
    · simp [ht]
    · simp [ht]

/-- Witness for C6 at a concrete document and profile. -/
theorem try_parse_spec_witness :
    try_parse_with_selectors exampleSoup exampleSel =
      (exampleSoup.select "c3").filterMap (parseItem exampleSel) :=
  (try_parse_spec exampleSoup exampleSel).2.1 "c3" rfl

/-- C9 counterexample: calling `add_cron_job` with a four-field cron
expression on an id that is already registered returns False and leaves
the registry empty — the previously registered job does not remain
registered, contrary to the claim. -/
theorem add_cron_job_drops_existing :
    (add_cron_job sched0 "j" "1 2 3 4").1 = false ∧
    (add_cron_job sched0 "j" "1 2 3 4").2.registered_jobs = [] := by
  decide

/-- C9 (amended): a malformed cron expression (field count other than
five) makes `add_cron_job` return False and install no new job, but
because the replace-by-id removal runs before validation, a job
previously registered under the same id is removed; the resulting
registry is exactly the old registry with that id filtered out. -/
theorem add_cron_job_malformed (s : Scheduler) (job_id expr : String)
    (h : (pySplit expr).length ≠ 5) :
    (add_cron_job s job_id expr).1 = false ∧
    (add_cron_job s job_id expr).2.registered_jobs =
      s.registered_jobs.filter (fun p => ¬ p.1 = job_id) := by
  unfold add_cron_job
  rw [if_neg h]
  refine ⟨rfl, ?_⟩
  by_cases hc : s.registered_jobs.any (fun p => p.1 = job_id) = true
  · simp only [hc, if_true]
    simp [remove_job, hc]
  · simp only [hc]
    rw [if_neg Bool.false_ne_true]
    rw [Bool.not_eq_true, List.any_eq_false] at hc
    rw [eq_comm, List.filter_eq_self]
    intro p hp
    have := hc p hp
    simpa using this

/-- Witness for C9 at a concrete scheduler state and expression. -/
theorem add_cron_job_malformed_witness :
    (add_cron_job sched0 "k" "1 2 3 4").1 = false ∧
    (add_cron_job sched0 "k" "1 2 3 4").2.registered_jobs =
      sched0.registered_jobs.filter (fun p => ¬ p.1 = "k") :=
  add_cron_job_malformed sched0 "k" "1 2 3 4" (by decide)

/-! Projection lemmas describing how each storage operation touches each
component of the database state. -/

theorem create_statusLog (db : DB) (kw eng : String) :
    (create_search_task db kw eng).2.statusLog =
      db.statusLog ++ [(db.nextId, "pending")] := rfl

theorem create_results (db : DB) (kw eng : String) :
    (create_search_task db kw eng).2.results = db.results := rfl

theorem create_statLog (db : DB) (kw eng : String) :
    (create_search_task db kw eng).2.statLog = db.statLog := rfl

theorem create_fst (db : DB) (kw eng : String) :
    (create_search_task db kw eng).1 = db.nextId := rfl

theorem uts_statusLog_running (db : DB) (id : Nat) (e : Option String) :
    (update_task_status db id "running" e).statusLog =
      db.statusLog ++ [(id, "running")] := by
  unfold update_task_status
  rw [if_pos rfl]

theorem uts_statusLog_completed (db : DB) (id : Nat) (e : Option String) :
    (update_task_status db id "completed" e).statusLog =
      db.statusLog ++ [(id, "completed")] := by
  unfold update_task_status
  rw [if_neg (by decide), if_pos rfl]

theorem uts_statusLog_failed (db : DB) (id : Nat) (e : Option String) :
    (update_task_status db id "failed" e).statusLog =
      db.statusLog ++ [(id, "failed")] := by
  unfold update_task_status
  rw [if_neg (by decide), if_neg (by decide), if_pos rfl]

theorem uts_results (db : DB) (id : Nat) (st : String) (e : Option String) :
    (update_task_status db id st e).results = db.results := by
  unfold update_task_status
  split_ifs <;> rfl

theorem uts_statLog (db : DB) (id : Nat) (st : String) (e : Option String) :
    (update_task_status db id st e).statLog = db.statLog := by
  unfold update_task_status
  split_ifs <;> rfl

theorem uts_stats (db : DB) (id : Nat) (st : String) (e : Option String) :
    (update_task_status db id st e).stats = db.stats := by
  unfold update_task_status
  split_ifs <;> rfl

theorem upstat_statLog (db : DB) (kw eng : String) (t s : Int) (rt : Rat) (d : Nat) :
    (update_statistics db kw eng t s rt d).statLog =
      db.statLog ++ [(kw, eng, t, s, rt)] := by
  unfold update_statistics
  split <;> rfl

theorem upstat_statusLog (db : DB) (kw eng : String) (t s : Int) (rt : Rat) (d : Nat) :
    (update_statistics db kw eng t s rt d).statusLog = db.statusLog := by
  unfold update_statistics
  split <;> rfl

theorem upstat_results (db : DB) (kw eng : String) (t s : Int) (rt : Rat) (d : Nat) :
    (update_statistics db kw eng t s rt d).results = db.results := by
  unfold update_statistics
  split <;> rfl

theorem ssr_statusLog (db : DB) (id : Nat) (kw eng : String) (rs : List Frag) :
    (save_search_results db id kw eng rs).statusLog = db.statusLog := rfl

theorem ssr_statLog (db : DB) (id : Nat) (kw eng : String) (rs : List Frag) :
    (save_search_results db id kw eng rs).statLog = db.statLog := rfl

/-- When every fetch fails, the page loop requests all page indices in
order and accumulates nothing. -/
theorem crawlPages_none (fp : Nat → Option (List Frag))
    (hfp : ∀ p, fp p = none) :
    ∀ n page, crawlPages fp n page = (List.range' page n, []) := by
  intro n
  induction n with
  | zero => intro page; rfl
  | succ k ih =>
    intro page
    simp [crawlPages, hfp page, ih (page + 1), List.range'_succ]

/-- C1 (amended): when every fetch attempt of every page fails (the
fetch layer returns its terminal failure value for each page), the
search returns the empty result list, persists zero Results, records one
statistic update with total=0 and success=0, and drives the task through
pending, running and then completed — not failed, and with no error
message written. -/
theorem search_keyword_all_fetches_fail (fp : Nat → Option (List Frag))
    (kw eng : String) (pages : Nat) (elapsed : Rat) (today : Nat) (db : DB)
    (heng : SEARCH_ENGINES.contains eng = true)
    (hfp : ∀ page, fp page = none) :
    (search_keyword fp kw eng pages elapsed today db).1 = [] ∧
    (search_keyword fp kw eng pages elapsed today db).2.results = db.results ∧
    (search_keyword fp kw eng pages elapsed today db).2.statLog =
      db.statLog ++ [(kw, eng, 0, 0, elapsed)] ∧
    (search_keyword fp kw eng pages elapsed today db).2.statusLog =
      db.statusLog ++ [(db.nextId, "pending"), (db.nextId, "running"),
                       (db.nextId, "completed")] := by
  have hcrawl : crawlPages fp pages 0 = (List.range' 0 pages, []) :=
    crawlPages_none fp hfp pages 0
  have hout : search_keyword fp kw eng pages elapsed today db =
      ([], update_task_status
            (update_statistics
              (update_task_status (create_search_task db kw eng).2 db.nextId
                "running" none)
              kw eng 0 0 elapsed today)
            db.nextId "completed" none) := by
    unfold search_keyword
    rw [heng, if_pos rfl]
    simp [hcrawl, create_fst]
  rw [hout]
  refine ⟨rfl, ?_, ?_, ?_⟩
  · rw [uts_results, upstat_results, uts_results, create_results]
  · rw [uts_statLog, upstat_statLog, uts_statLog, create_statLog]
  · rw [uts_statusLog_completed, upstat_statusLog, uts_statusLog_running,
        create_statusLog]
    simp

/-- Witness for C1 (amended) at a concrete run. -/
theorem search_keyword_all_fetches_fail_witness :
    (search_keyword (fun _ => none) "k" "baidu" 2 1 0 DB.empty).1 = [] ∧
    (search_keyword (fun _ => none) "k" "baidu" 2 1 0 DB.empty).2.results =
      DB.empty.results ∧
    (search_keyword (fun _ => none) "k" "baidu" 2 1 0 DB.empty).2.statLog =
      DB.empty.statLog ++ [("k", "baidu", 0, 0, 1)] ∧
    (search_keyword (fun _ => none) "k" "baidu" 2 1 0 DB.empty).2.statusLog =
      DB.empty.statusLog ++ [(DB.empty.nextId, "pending"),
        (DB.empty.nextId, "running"), (DB.empty.nextId, "completed")] :=
  search_keyword_all_fetches_fail (fun _ => none) "k" "baidu" 2 1 0 DB.empty
    (by decide) (fun _ => rfl)

/-- C1 counterexample: with every fetch attempt answered by HTTP 429 the
task ends in status completed with no error message — not in status
failed with a non-empty message as the claim states (zero results and a
total=0, success=0 statistic are indeed recorded). -/
theorem search_keyword_429_not_failed :
    ((search_keyword alwaysBlockedFetch "test" "baidu" 3 1 0 DB.empty).2.tasks.map
        (fun p => (p.2.status, p.2.error_message))) = [("completed", none)] ∧
    (search_keyword alwaysBlockedFetch "test" "baidu" 3 1 0 DB.empty).2.results = [] ∧
    (search_keyword alwaysBlockedFetch "test" "baidu" 3 1 0 DB.empty).2.statLog =
      [("test", "baidu", 0, 0, 1)] := by
  decide

/-- Unfolding of a supported-engine `search_keyword` run. -/
theorem search_keyword_eq_supported (fp : Nat → Option (List Frag))
    (kw eng : String) (pages : Nat) (elapsed : Rat) (today : Nat) (db : DB)
    (heng : SEARCH_ENGINES.contains eng = true) :
    search_keyword fp kw eng pages elapsed today db =
      ((crawlPages fp pages 0).2,
       update_task_status
         (update_statistics
           (if (crawlPages fp pages 0).2.isEmpty then
              update_task_status (create_search_task db kw eng).2 db.nextId
                "running" none
            else
              save_search_results
                (update_task_status (create_search_task db kw eng).2 db.nextId
                  "running" none)
                db.nextId kw eng (crawlPages fp pages 0).2)
           kw eng ((crawlPages fp pages 0).2.length : Int)
           ((crawlPages fp pages 0).2.length : Int) elapsed today)
         db.nextId "completed" none) := by
  unfold search_keyword
  rw [heng, if_pos rfl]
  rfl

/-- Unfolding of an unsupported-engine `search_keyword` run (the
`ValueError` path caught by the `except` block). -/
theorem search_keyword_eq_unsupported (fp : Nat → Option (List Frag))
    (kw eng : String) (pages : Nat) (elapsed : Rat) (today : Nat) (db : DB)
    (heng : ¬ SEARCH_ENGINES.contains eng = true) :
    search_keyword fp kw eng pages elapsed today db =
      ([], update_statistics
            (update_task_status
              (update_task_status (create_search_task db kw eng).2 db.nextId
                "running" none)
              db.nextId "failed" (some ("不支持的搜索引擎: " ++ eng)))
            kw eng 0 0 elapsed today) := by
  unfold search_keyword
  rw [if_neg heng]
  rfl

/-- A possible save step between the running and completed updates does
not touch the status history. -/
theorem ite_save_statusLog (c : Prop) [Decidable c] (db : DB) (id : Nat)
    (kw eng : String) (rs : List Frag) :
    (if c then db else save_search_results db id kw eng rs).statusLog =
      db.statusLog := by
  split
  · rfl
  · rw [ssr_statusLog]

/-- Every run appends exactly the statuses pending, running and then one
terminal status (completed for a configured engine, failed otherwise),
all for the task created by the run. -/
theorem search_keyword_statusLog (fp : Nat → Option (List Frag))
    (kw eng : String) (pages : Nat) (elapsed : Rat) (today : Nat) (db : DB) :
    (search_keyword fp kw eng pages elapsed today db).2.statusLog =
      db.statusLog ++ [(db.nextId, "pending"), (db.nextId, "running"),
        (db.nextId, if SEARCH_ENGINES.contains eng then "completed" else "failed")] := by
  by_cases heng : SEARCH_ENGINES.contains eng = true
  · rw [search_keyword_eq_supported fp kw eng pages elapsed today db heng]
    dsimp only
    rw [uts_statusLog_completed, upstat_statusLog, ite_save_statusLog,
        uts_statusLog_running, create_statusLog, if_pos heng]
    simp
  · rw [search_keyword_eq_unsupported fp kw eng pages elapsed today db heng]
    dsimp only
    rw [upstat_statusLog, uts_statusLog_failed, uts_statusLog_running,
        create_statusLog, if_neg heng]
    simp

/-- The run's status trace is pending, running, completed — or pending,
running, failed. -/
theorem runStatusTrace_cases (fp : Nat → Option (List Frag))
    (kw eng : String) (pages : Nat) (elapsed : Rat) (today : Nat) (db : DB) :
    runStatusTrace fp kw eng pages elapsed today db =
      ["pending", "running", "completed"] ∨
    runStatusTrace fp kw eng pages elapsed today db =
      ["pending", "running", "failed"] := by
  unfold runStatusTrace
  rw [search_keyword_statusLog, List.drop_left]
  by_cases heng : SEARCH_ENGINES.contains eng = true
  · left; rw [if_pos heng]; rfl
  · right; rw [if_neg heng]; rfl

/-- C3: a search run drives its task through pending → running →
(completed or failed) only — consecutive statuses of the run's status
trace are always among the three allowed transitions, a terminal status
appears only as the very last entry of the trace, and the run writes no
status for any task other than the one it created (so a task that has
reached a terminal status is never touched again). -/
theorem task_status_transitions (fp : Nat → Option (List Frag))
    (kw eng : String) (pages : Nat) (elapsed : Rat) (today : Nat) (db : DB) :
    List.Chain' (fun a b => allowedTransition a b = true)
      (runStatusTrace fp kw eng pages elapsed today db) ∧
    (∀ i, i < (runStatusTrace fp kw eng pages elapsed today db).length →
      terminalStatus
        ((runStatusTrace fp kw eng pages elapsed today db).getD i "") = true →
      i = (runStatusTrace fp kw eng pages elapsed today db).length - 1) ∧
    (∀ e ∈ (search_keyword fp kw eng pages elapsed today db).2.statusLog.drop
        db.statusLog.length, e.1 = db.nextId) := by
  refine ⟨?_, ?_, ?_⟩
  · rcases runStatusTrace_cases fp kw eng pages elapsed today db with h | h <;>
      rw [h] <;>
      exact List.chain'_cons.mpr ⟨by decide,
        List.chain'_cons.mpr ⟨by decide, List.chain'_singleton _⟩⟩
  · rcases runStatusTrace_cases fp kw eng pages elapsed today db with h | h <;>
      rw [h] <;> intro i hi ht <;>
      have hi₃ : i < 3 := by simpa using hi
    all_goals interval_cases i
    all_goals first
      | rfl
      | exact absurd ht (by decide)
  · rw [search_keyword_statusLog, List.drop_left]
    intro e he
    simp only [List.mem_cons, List.not_mem_nil, or_false] at he
    rcases he with rfl | rfl | rfl <;> rfl

/-- Witness for C3 at a concrete run and trace position. -/
theorem task_status_transitions_witness :
    (2 : Nat) = (runStatusTrace (fun _ => none) "k" "baidu" 1 1 0 DB.empty).length - 1 :=
  (task_status_transitions (fun _ => none) "k" "baidu" 1 1 0 DB.empty).2.1 2
    (by decide) (by decide)

end KeywordCrawler
